import Mathlib

/-!
Shallow embedding of `exec2.py` (the single source file of the `lol_skin`
repository) and proofs about the properties its specification states.

Python strings are modelled as `List Char`; Python `None` as `Option.none`;
dictionary lookups with a default (`d.get(k, default)`) as `Option.getD`;
response bodies as `List Nat` (byte sequences); a `requests.get` call is
modelled by its outcome, either a raised `RequestException` or a response
carrying an HTTP status code and a body.  Tkinter widget state is an explicit
record, and each event handler of `SkinChangerApp` becomes a state-transition
function that also reports which background fetches it dispatched.
-/

namespace Exec2

/-- Outcome of a `requests.get` call: either the library raised a
`RequestException` (connection error, timeout, ...) carrying a message, or a
response arrived with an HTTP status code and a body of bytes. -/
inductive RequestOutcome where
  | exn (msg : List Char)
  | response (status : Nat) (content : List Nat)
deriving DecidableEq

/-- `Response.raise_for_status` raises `HTTPError` exactly for client and
server error codes, i.e. statuses in `[400, 600)`. -/
def raiseForStatusFails (status : Nat) : Bool :=
  decide (400 ≤ status) && decide (status < 600)

/-- Python `str.startswith`, on strings modelled as `List Char`. -/
def pyStartsWith : List Char → List Char → Bool
  | _, [] => true
  | [], _ :: _ => false
  | c :: cs, d :: ds => c = d && pyStartsWith cs ds

/-- The fixed CDN base hard-coded in `normalize_cdragon_path`. -/
def CDRAGON_BASE : List Char := "https://raw.communitydragon.org/latest".data

/-- Embedding of `normalize_cdragon_path(path)` (exec2.py lines 26-35):
empty or `None` path gives the empty string; an absolute `http://` or
`https://` URL is returned unchanged; otherwise a leading slash is added when
missing and the CDN base is prefixed. -/
def normalize_cdragon_path (path : Option (List Char)) : List Char :=
  match path with
  | none => []
  | some p =>
    if p = [] then []
    else if pyStartsWith p "http://".data || pyStartsWith p "https://".data then p
    else if pyStartsWith p "/".data then CDRAGON_BASE ++ p
    else CDRAGON_BASE ++ '/' :: p

/-- Embedding of `check_url_exists(url)` (exec2.py lines 37-43) as a function
of the outcome of its single `requests.get(url, timeout=30)` call: `True`
exactly when a response with status 200 arrived, `False` when the status
differs, and `False` when `RequestException` was raised (the `except` branch).
It is a total function: it never propagates an exception. -/
def check_url_exists (outcome : RequestOutcome) : Bool :=
  match outcome with
  | .exn _ => false
  | .response status _ => status == 200

/-- The GitHub base URL hard-coded as `GITHUB_ZIP_BASE` in exec2.py. -/
def GITHUB_ZIP_BASE : List Char :=
  "https://raw.githubusercontent.com/darkseal-org/lol-skins/main/skins/".data

/-- A file system, mapping paths to the byte content of existing files. -/
def FileSystem : Type := List Char → Option (List Nat)

/-- Writing a file: opening in mode wb followed by `f.write(...)`
truncates/creates, so the previous content at that path is replaced
wholesale. -/
def fsWrite (fs : FileSystem) (p : List Char) (content : List Nat) : FileSystem :=
  fun q => if q = p then some content else fs q

/-- The URL `download_zip` requests: `GITHUB_ZIP_BASE + champion + "/" + zip_name`
(the f-string on exec2.py line 57). -/
def downloadUrl (champion zip_name : List Char) : List Char :=
  GITHUB_ZIP_BASE ++ champion ++ '/' :: zip_name

/-- A network, giving the outcome of one GET request per URL. -/
def Network : Type := List Char → RequestOutcome

/-- Embedding of `download_zip(champion, zip_name, target_dir)` (exec2.py
lines 55-65), as a function of the network (which determines the outcome of
its `requests.get(url, timeout=60)` call) and of the current file system.  A
raised exception or an error status propagates (`.error`); otherwise the full
response body is written to `target_dir / zip_name`, overwriting any existing
file, and that path is returned together with the updated file system. -/
def download_zip (champion zip_name target_dir : List Char)
    (net : Network) (fs : FileSystem) :
    Except (List Char) (List Char × FileSystem) :=
  match net (downloadUrl champion zip_name) with
  | .exn m => .error m
  | .response status content =>
    if raiseForStatusFails status then
      .error ("HTTPError ".data ++ Nat.toDigits 10 status)
    else
      let target_file := target_dir ++ '/' :: zip_name
      .ok (target_file, fsWrite fs target_file content)

/-- One chroma record of the champion-detail JSON: the fields exec2.py reads.
`splashPath` is read with `c.get(...)`, so it may be absent. -/
structure Chroma where
  name : List Char
  splashPath : Option (List Char)
deriving DecidableEq

/-- One skin record of the champion-detail JSON: the fields exec2.py reads.
`isBase` is read as `s.get(..., False)` and `chromas` as `s.get(..., [])`,
so both may be absent; `splashPath` is read with a plain `s.get(...)`. -/
structure Skin where
  name : List Char
  isBase : Option Bool
  splashPath : Option (List Char)
  chromas : Option (List Chroma)
deriving DecidableEq

/-- One entry of the champion-summary JSON: the fields exec2.py reads. -/
structure Champion where
  id : Nat
  name : List Char
deriving DecidableEq

/-- The champion-detail JSON: exec2.py reads only its skins array.  The
embedding assumes the detail document has the skins key, the shape the
catalog API documents; a malformed document is covered by the `.error` case
of the fetch outcome. -/
structure ChampionDetail where
  skins : List Skin
deriving DecidableEq

/-- An image held by the preview label: its pixel dimensions and the bytes it
was decoded from. -/
structure PreviewImage where
  width : Nat
  height : Nat
  source : List Nat
deriving DecidableEq

/-- The mutable state of `SkinChangerApp` that the event handlers touch: the
loaded catalog, the current detail, the three combobox value lists and
StringVars, the status line, and the preview label (its image and its text
are independent tkinter options, so they are separate fields). -/
structure AppState where
  champions : List Champion
  current_champion_data : Option ChampionDetail
  cmbChampionValues : List (List Char)
  var_champion : List Char
  cmbSkinValues : List (List Char)
  var_skin : List Char
  cmbChromaValues : List (List Char)
  var_chroma : List Char
  var_status : List Char
  previewImage : Option PreviewImage
  previewText : List Char
deriving DecidableEq

/-- The names bound at module level in exec2.py: the ten names its import
statements introduce, followed by its own top-level assignments, functions
and class.  PIL is never imported, so neither Image nor ImageTk is among
them. -/
def exec2ModuleNames : List (List Char) :=
  ["io", "os", "subprocess", "threading", "requests", "Path", "messagebox",
   "tk", "ttk", "shutil", "USER_PROFILE", "LOCAL_SKIN_CACHE", "GITHUB_ZIP_BASE",
   "fetch_json", "normalize_cdragon_path", "check_url_exists",
   "get_champion_summary", "get_champion_detail", "download_zip",
   "open_explorer", "SkinChangerApp"].map String.data

/-- The Python error message produced when evaluating an unbound name. -/
def nameErrorMsg (n : List Char) : List Char :=
  "name \x27".data ++ n ++ "\x27 is not defined".data

/-- Embedding of the synchronous part of `_show_image_async(path)` (exec2.py
lines 215-219), run before any thread is spawned: resolve the asset URL and
probe it with `check_url_exists`; when the URL is empty or the probe fails,
set the placeholder text on the preview label (its image option is untouched)
and dispatch nothing; otherwise leave the state alone and dispatch the
background task for that URL (returned as `some url`). -/
def show_image_async_sync (st : AppState) (path : Option (List Char))
    (net : Network) : AppState × Option (List Char) :=
  let url := normalize_cdragon_path path
  if url = [] || !(check_url_exists (net url)) then
    ({ st with previewText := "[Impossible d\x27afficher l\x27image]".data }, none)
  else
    (st, some url)

/-- Embedding of the background task body of `_show_image_async` (exec2.py
lines 221-232), as a function of the outcome of its `requests.get(url,
timeout=30)` call and of a decoder standing for `Image.open` (which returns
`none` on undecodable bytes).  Every raised exception is caught by the
handler, which sets only the overlay text, keeping the label image.  After a
successful fetch the body evaluates the name `Image`; that name is bound
nowhere in exec2ModuleNames, so a `NameError` is raised before any decoding
can happen.  The branch guarded by `Image` being bound embeds what the
remaining statements would do: decode, resize to 512 by 288, store the photo
on the label and clear the overlay text. -/
def show_image_task (st : AppState) (outcome : RequestOutcome)
    (decode : List Nat → Option PreviewImage) : AppState :=
  match outcome with
  | .exn e => { st with previewText := "[Impossible d\x27afficher] ".data ++ e }
  | .response status content =>
    if raiseForStatusFails status then
      { st with previewText :=
          "[Impossible d\x27afficher] HTTPError ".data ++ Nat.toDigits 10 status }
    else if exec2ModuleNames.contains "Image".data then
      match decode content with
      | none =>
        { st with previewText :=
            "[Impossible d\x27afficher] cannot identify image file".data }
      | some img =>
        { st with
            previewImage := some { img with width := 512, height := 288 },
            previewText := [] }
    else
      { st with previewText :=
          "[Impossible d\x27afficher] ".data ++ nameErrorMsg "Image".data }

/-- Embedding of `on_champion_selected` (exec2.py lines 133-141): read the
champion StringVar, look the name up in the loaded catalog (first match),
and when found set the status line and dispatch the background detail fetch
for that champion id (returned as `some id`); otherwise do nothing. -/
def on_champion_selected (st : AppState) : AppState × Option Nat :=
  let champ_name := st.var_champion
  if champ_name = [] then (st, none)
  else
    match st.champions.find? (fun c => c.name = champ_name) with
    | none => (st, none)
    | some champ =>
      ({ st with var_status := "Chargement des skins…".data }, some champ.id)

/-- Embedding of `_load_champ_data(cid)` (exec2.py lines 177-187), run when
the detail fetch completes: on success store the detail, set the skin
combobox values to the names of the non-base skins (the list comprehension
filtering on `s.get` of isBase with default False), clear the skin and chroma
selections, and set the ready status; on any exception set only the error
status — nothing else is touched. -/
def load_champ_data (st : AppState) (fetch : Except (List Char) ChampionDetail) :
    AppState :=
  match fetch with
  | .ok data =>
    { st with
        current_champion_data := some data,
        cmbSkinValues :=
          (data.skins.filter (fun s => !(s.isBase.getD false))).map Skin.name,
        var_skin := [],
        cmbChromaValues := [],
        var_chroma := [],
        var_status := "Sélectionnez un skin.".data }
  | .error e =>
    { st with var_status := "Erreur chargement skins : ".data ++ e }

/-- Embedding of `on_skin_selected` (exec2.py lines 143-153): read the skin
StringVar, return early when it is empty or no detail is loaded, look the
skin up by name in the current detail; when found, set the chroma combobox
values to the chroma names — or to the single placeholder entry when the
list is empty — preselect the first chroma or the placeholder, and dispatch
the preview fetch for the skin splashPath.  The second component lists the
arguments of every `_show_image_async` dispatch the handler performs. -/
def on_skin_selected (st : AppState) : AppState × List (Option (List Char)) :=
  let skin_name := st.var_skin
  match st.current_champion_data with
  | none => (st, [])
  | some data =>
    if skin_name = [] then (st, [])
    else
      match data.skins.find? (fun s => s.name = skin_name) with
      | none => (st, [])
      | some skin =>
        let chroma_names := ((skin.chromas.getD []).map Chroma.name)
        ({ st with
            cmbChromaValues := if chroma_names = [] then ["—".data] else chroma_names,
            var_chroma := chroma_names.headD "—".data },
         [skin.splashPath])

/-- The specified skin filtering, written independently of the embedding: the
detail skins with the isBase-true entries removed, in their original
order. -/
def removeBaseSkins : List Skin → List Skin
  | [] => []
  | s :: rest =>
    if s.isBase.getD false then removeBaseSkins rest else s :: removeBaseSkins rest

/-- The path without its leading slash when it has one: the part of the input
that follows the single separating slash in the URL built by
`normalize_cdragon_path`. -/
def stripLeadingSlash (p : List Char) : List Char :=
  if pyStartsWith p "/".data then p.tail else p

/-- A decoder standing for a PIL that would succeed on any input, used to
evaluate the preview task at a concrete input. -/
def sampleDecoder : List Nat → Option PreviewImage :=
  fun bytes => some { width := 1280, height := 720, source := bytes }

/-- Sample catalog entry. -/
def champA : Champion := { id := 103, name := "Ahri".data }

/-- Sample catalog entry. -/
def champB : Champion := { id := 63, name := "Brand".data }

/-- Sample base skin (excluded from the selectable list). -/
def skinAhriBase : Skin :=
  { name := "Ahri".data, isBase := some true,
    splashPath := some "/assets/ahri.jpg".data, chromas := none }

/-- Sample non-base skin with no chromas key in its JSON record. -/
def skinStarGuardian : Skin :=
  { name := "Star Guardian Ahri".data, isBase := some false,
    splashPath := some "/assets/sg-ahri.jpg".data, chromas := none }

/-- Sample detail for `champA`. -/
def detailA : ChampionDetail := { skins := [skinAhriBase, skinStarGuardian] }

/-- Sample base skin for `champB`. -/
def skinBrandBase : Skin :=
  { name := "Brand".data, isBase := some true, splashPath := none, chromas := none }

/-- Sample non-base skin for `champB`, carrying one chroma. -/
def skinZombieBrand : Skin :=
  { name := "Zombie Brand".data, isBase := some false,
    splashPath := some "/assets/zombie-brand.jpg".data,
    chromas := some [{ name := "Ruby".data,
                       splashPath := some "/chromas/zb-ruby.png".data }] }

/-- Sample detail for `champB`. -/
def detailB : ChampionDetail := { skins := [skinBrandBase, skinZombieBrand] }

/-- The application state right after the catalog load succeeded and before
any selection. -/
def st0 : AppState :=
  { champions := [champA, champB],
    current_champion_data := none,
    cmbChampionValues := ["Ahri".data, "Brand".data],
    var_champion := [],
    cmbSkinValues := [],
    var_skin := [],
    cmbChromaValues := [],
    var_chroma := [],
    var_status := "Choisissez un champion.".data,
    previewImage := none,
    previewText := [] }

/-- A sample image sitting in the preview label. -/
def sampleImage : PreviewImage :=
  { width := 512, height := 288, source := [137, 80, 78, 71] }

/-- A state in which an image is displayed, used to observe that the handlers
under scrutiny leave it in place. -/
def stWithImage : AppState :=
  { st0 with var_champion := "Ahri".data, previewImage := some sampleImage }

/-- A state reached after a successful selection of `champA` (its skins are
listed) and with `champB` now picked in the champion combobox, ready for the
next selection event. -/
def stSkinsLoaded : AppState :=
  { st0 with
      current_champion_data := some detailA,
      var_champion := "Brand".data,
      cmbSkinValues := ["Star Guardian Ahri".data],
      var_status := "Sélectionnez un skin.".data }

/-- A state with `detailA` loaded and the Star Guardian skin picked in the
skin combobox, ready for the skin-selection event. -/
def stSkinPicked : AppState :=
  { st0 with
      current_champion_data := some detailA,
      var_champion := "Ahri".data,
      cmbSkinValues := ["Star Guardian Ahri".data],
      var_skin := "Star Guardian Ahri".data }

/-- Race scenario, step 1: champion A is selected. -/
def c10_st1 : AppState :=
  (on_champion_selected { st0 with var_champion := "Ahri".data }).1

/-- Race scenario, step 2: champion B is selected before the fetch for A
resolves. -/
def c10_st2 : AppState :=
  (on_champion_selected { c10_st1 with var_champion := "Brand".data }).1

/-- Race scenario, step 3: the fetch for B resolves first. -/
def c10_st3 : AppState := load_champ_data c10_st2 (.ok detailB)

/-- Race scenario, step 4: the stale fetch for A resolves last and is applied
unconditionally — exec2.py carries no selection token. -/
def c10_st4 : AppState := load_champ_data c10_st3 (.ok detailA)

/-! ### Helper lemmas -/

theorem pyStartsWith_nil_cons (c : Char) (cs : List Char) :
    pyStartsWith [] (c :: cs) = false := rfl

theorem pyStartsWith_single (p : List Char) (c : Char)
    (h : pyStartsWith p [c] = true) : p = c :: p.tail := by
  cases p with
  | nil => simp [pyStartsWith] at h
  | cons a as =>
    have : a = c := by
      have h2 := h
      unfold pyStartsWith at h2
      simpa [pyStartsWith] using h2
    simp [this]

theorem normalize_absolute (p : List Char)
    (h : (pyStartsWith p "http://".data || pyStartsWith p "https://".data) = true) :
    normalize_cdragon_path (some p) = p := by
  have hne : p ≠ [] := by
    intro e
    subst e
    simp [pyStartsWith] at h
  unfold normalize_cdragon_path
  simp [hne, h]

theorem removeBaseSkins_eq_filter (l : List Skin) :
    removeBaseSkins l = l.filter (fun s => !(s.isBase.getD false)) := by
  induction l with
  | nil => rfl
  | cons s rest ih =>
    unfold removeBaseSkins
    rw [List.filter_cons]
    cases hb : s.isBase.getD false <;> simp [hb, ih]

theorem on_champion_selected_fst_cmbSkinValues (st : AppState) :
    (on_champion_selected st).1.cmbSkinValues = st.cmbSkinValues := by
  unfold on_champion_selected
  by_cases h : st.var_champion = []
  · simp [h]
  · cases hf : st.champions.find? (fun c => c.name = st.var_champion) <;> simp [h, hf]

/-! ### Claim theorems -/

/-- Claim C4: `normalize_cdragon_path` returns the empty string on an empty
or absent path, returns an absolute `http://` or `https://` URL unchanged,
and otherwise prefixes the fixed CDN base with exactly one separating slash
(the result is the base, one slash, then the path stripped of its leading
slash when it had one) — so the relative paths with and without a leading
slash resolve to the identical absolute URL. -/
theorem C4_resolve_asset_url :
    (normalize_cdragon_path none = [] ∧ normalize_cdragon_path (some []) = []) ∧
    (∀ p : List Char,
       (pyStartsWith p "http://".data || pyStartsWith p "https://".data) = true →
       normalize_cdragon_path (some p) = p) ∧
    (∀ p : List Char, p ≠ [] →
       (pyStartsWith p "http://".data || pyStartsWith p "https://".data) = false →
       normalize_cdragon_path (some p) = CDRAGON_BASE ++ '/' :: stripLeadingSlash p) ∧
    normalize_cdragon_path (some "assets/foo.png".data)
      = normalize_cdragon_path (some "/assets/foo.png".data) := by
  refine ⟨⟨rfl, rfl⟩, fun p h => normalize_absolute p h, ?_, by decide⟩
  intro p hne habs
  unfold normalize_cdragon_path stripLeadingSlash
  simp only [hne, if_false, habs, Bool.false_eq_true]
  cases hs : pyStartsWith p "/".data with
  | true =>
    have hp := pyStartsWith_single p '/' (by simpa using hs)
    simp [hs, hne]
    exact hp
  | false =>
    simp [hs, hne]

/-- Witness for C4: the absolute-URL case at a concrete URL, and the
relative case at the concrete path from the specification. -/
theorem C4_resolve_asset_url_witness :
    normalize_cdragon_path (some "https://example.com/a.png".data)
        = "https://example.com/a.png".data ∧
    normalize_cdragon_path (some "assets/foo.png".data)
        = CDRAGON_BASE ++ '/' :: stripLeadingSlash "assets/foo.png".data :=
  ⟨C4_resolve_asset_url.2.1 _ (by decide),
   C4_resolve_asset_url.2.2.1 _ (by decide) (by decide)⟩

/-- Claim C5: `check_url_exists` is a total function of the outcome of its
GET request — the model of never raising: it returns false whenever the
request raised an exception, and on a response it returns true exactly when
the HTTP status is 200. -/
theorem C5_check_url_exists :
    (∀ m : List Char, check_url_exists (.exn m) = false) ∧
    (∀ (s : Nat) (c : List Nat),
       check_url_exists (.response s c) = true ↔ s = 200) := by
  refine ⟨fun m => rfl, fun s c => ?_⟩
  simp [check_url_exists]

/-- Claim C9: `normalize_cdragon_path` is idempotent on inputs that are
already absolute URLs. -/
theorem C9_resolve_idempotent (p : List Char)
    (h : (pyStartsWith p "http://".data || pyStartsWith p "https://".data) = true) :
    normalize_cdragon_path (some (normalize_cdragon_path (some p)))
      = normalize_cdragon_path (some p) := by
  rw [normalize_absolute p h, normalize_absolute p h]

/-- Witness for C9 at a concrete absolute URL. -/
theorem C9_resolve_idempotent_witness :
    normalize_cdragon_path
        (some (normalize_cdragon_path (some "https://raw.communitydragon.org/latest/a.png".data)))
      = normalize_cdragon_path (some "https://raw.communitydragon.org/latest/a.png".data) :=
  C9_resolve_idempotent "https://raw.communitydragon.org/latest/a.png".data (by decide)

/-- Claim C1: after a champion selection, completing the detail fetch sets
the skin combobox values to exactly the names of the fetched detail skins
with the isBase-true entries removed, and that list preserves the order of
the original skins sequence (it is a sublist of the full name list). -/
theorem C1_skin_list_excludes_base (st : AppState) (data : ChampionDetail) :
    (load_champ_data (on_champion_selected st).1 (.ok data)).cmbSkinValues
        = (removeBaseSkins data.skins).map Skin.name ∧
    List.Sublist
      (load_champ_data (on_champion_selected st).1 (.ok data)).cmbSkinValues
      (data.skins.map Skin.name) := by
  constructor
  · simp [load_champ_data, removeBaseSkins_eq_filter]
  · exact List.Sublist.map Skin.name (List.filter_sublist data.skins)

/-- Claim C2: when the resolved asset URL is empty or the existence probe
fails, the preview handler sets the placeholder text, leaves the displayed
image untouched, and dispatches no background fetch. -/
theorem C2_placeholder_keeps_image (st : AppState) (path : Option (List Char))
    (net : Network)
    (h : normalize_cdragon_path path = [] ∨
         check_url_exists (net (normalize_cdragon_path path)) = false) :
    (show_image_async_sync st path net).1.previewText
        = "[Impossible d\x27afficher l\x27image]".data ∧
    (show_image_async_sync st path net).1.previewImage = st.previewImage ∧
    (show_image_async_sync st path net).2 = none := by
  unfold show_image_async_sync
  rcases h with h | h <;> simp [h]

/-- Witness for C2: a preview fetch for an absent splashPath, in a state
displaying an image; the placeholder text appears and the image stays. -/
theorem C2_placeholder_keeps_image_witness :
    (show_image_async_sync stWithImage none (fun _ => .exn [])).1.previewText
        = "[Impossible d\x27afficher l\x27image]".data ∧
    (show_image_async_sync stWithImage none (fun _ => .exn [])).1.previewImage
        = some sampleImage ∧
    (show_image_async_sync stWithImage none (fun _ => .exn [])).2 = none := by
  have h := C2_placeholder_keeps_image stWithImage none (fun _ => .exn []) (Or.inl rfl)
  exact ⟨h.1, by rw [h.2.1]; rfl, h.2.2⟩

/-- Claim C6: two calls of `download_zip` with the same champion, file name
and target directory return the same destination path both times; the first
write puts the first response body there and the second call overwrites it,
so the file afterwards holds the body of the most recent response. -/
theorem C6_download_twice_overwrites (champion zip_name target_dir : List Char)
    (net1 net2 : Network) (s1 s2 : Nat) (c1 c2 : List Nat) (fs : FileSystem)
    (h1 : net1 (downloadUrl champion zip_name) = .response s1 c1)
    (h2 : net2 (downloadUrl champion zip_name) = .response s2 c2)
    (hs1 : raiseForStatusFails s1 = false)
    (hs2 : raiseForStatusFails s2 = false) :
    ∃ fs1 fs2 : FileSystem,
      download_zip champion zip_name target_dir net1 fs
          = .ok (target_dir ++ '/' :: zip_name, fs1) ∧
      download_zip champion zip_name target_dir net2 fs1
          = .ok (target_dir ++ '/' :: zip_name, fs2) ∧
      fs1 (target_dir ++ '/' :: zip_name) = some c1 ∧
      fs2 (target_dir ++ '/' :: zip_name) = some c2 := by
  refine ⟨fsWrite fs (target_dir ++ '/' :: zip_name) c1,
          fsWrite (fsWrite fs (target_dir ++ '/' :: zip_name) c1)
            (target_dir ++ '/' :: zip_name) c2, ?_, ?_, ?_, ?_⟩
  · unfold download_zip
    rw [h1]
    simp [hs1]
  · unfold download_zip
    rw [h2]
    simp [hs2]
  · simp [fsWrite]
  · simp [fsWrite]

/-- Witness for C6 at concrete arguments: two GETs answering 200 with
different bodies; both calls return the cache path and the file ends up with
the second body. -/
theorem C6_download_twice_overwrites_witness :
    ∃ fs1 fs2 : Exec2.FileSystem,
      download_zip "Ahri".data "skinA.zip".data "cache".data
          (fun _ => .response 200 [1, 2]) (fun _ => none)
          = .ok ("cache".data ++ '/' :: "skinA.zip".data, fs1) ∧
      download_zip "Ahri".data "skinA.zip".data "cache".data
          (fun _ => .response 200 [3, 4]) fs1
          = .ok ("cache".data ++ '/' :: "skinA.zip".data, fs2) ∧
      fs1 ("cache".data ++ '/' :: "skinA.zip".data) = some [1, 2] ∧
      fs2 ("cache".data ++ '/' :: "skinA.zip".data) = some [3, 4] :=
  C6_download_twice_overwrites "Ahri".data "skinA.zip".data "cache".data
    (fun _ => .response 200 [1, 2]) (fun _ => .response 200 [3, 4])
    200 200 [1, 2] [3, 4] (fun _ => none) rfl rfl rfl rfl

/-- Claim C3, evaluated at its failing input: exec2.py never imports PIL, so
the name Image is unbound at module level; a preview task whose GET succeeds
with status 200 and decodable bytes therefore raises `NameError` before any
decoding, and the handler shows the error overlay — the bytes are never
decoded, never resized to 512 by 288, and never displayed (the label image is
left as it was). -/
theorem C3_preview_never_displays :
    exec2ModuleNames.contains "Image".data = false ∧
    (show_image_task stWithImage (.response 200 [137, 80, 78, 71])
        sampleDecoder).previewText
      = "[Impossible d\x27afficher] ".data ++ nameErrorMsg "Image".data ∧
    (show_image_task stWithImage (.response 200 [137, 80, 78, 71])
        sampleDecoder).previewImage
      = stWithImage.previewImage := by
  refine ⟨by decide, by decide, by decide⟩

/-- Claim C7 as stated is false: in a state whose skin combobox still lists a
previously loaded skin, a champion selection whose detail fetch fails sets
the error status but the skin list is not empty — it still holds the stale
entry. -/
theorem C7_counterexample :
    (load_champ_data (on_champion_selected stSkinsLoaded).1
        (.error "timeout".data)).var_status
      = "Erreur chargement skins : timeout".data ∧
    (load_champ_data (on_champion_selected stSkinsLoaded).1
        (.error "timeout".data)).cmbSkinValues
      = ["Star Guardian Ahri".data] ∧
    (load_champ_data (on_champion_selected stSkinsLoaded).1
        (.error "timeout".data)).cmbSkinValues ≠ [] := by
  refine ⟨by decide, by decide, by decide⟩

/-- Claim C7 amended: when the detail fetch dispatched by a champion
selection fails, the status line is set to the error message and the skin
combobox values are left unchanged — so they are empty only if they were
already empty before the selection. -/
theorem C7_amended_failure_keeps_skin_list (st : AppState) (e : List Char) :
    (load_champ_data (on_champion_selected st).1 (.error e)).var_status
        = "Erreur chargement skins : ".data ++ e ∧
    (load_champ_data (on_champion_selected st).1 (.error e)).cmbSkinValues
        = st.cmbSkinValues := by
  exact ⟨rfl, on_champion_selected_fst_cmbSkinValues st⟩

/-- Claim C8: selecting a skin whose chroma list is empty sets the chroma
combobox values to the single placeholder entry, selects the placeholder,
and dispatches exactly one preview fetch — the one for the skin splashPath. -/
theorem C8_empty_chromas_placeholder (st : AppState) (data : ChampionDetail)
    (skin : Skin)
    (hd : st.current_champion_data = some data)
    (hn : st.var_skin ≠ [])
    (hf : data.skins.find? (fun s => s.name = st.var_skin) = some skin)
    (hc : skin.chromas.getD [] = []) :
    (on_skin_selected st).1.cmbChromaValues = ["—".data] ∧
    (on_skin_selected st).1.var_chroma = "—".data ∧
    (on_skin_selected st).2 = [skin.splashPath] := by
  simp [on_skin_selected, hd, hn, hf, hc]

/-- Witness for C8: selecting the chroma-less Star Guardian skin of the
sample detail. -/
theorem C8_empty_chromas_placeholder_witness :
    (on_skin_selected stSkinPicked).1.cmbChromaValues = ["—".data] ∧
    (on_skin_selected stSkinPicked).1.var_chroma = "—".data ∧
    (on_skin_selected stSkinPicked).2 = [some "/assets/sg-ahri.jpg".data] := by
  have h := C8_empty_chromas_placeholder stSkinPicked detailA skinStarGuardian
    rfl (by decide) (by decide) rfl
  exact ⟨h.1, h.2.1, by rw [h.2.2]; rfl⟩

/-- Claim C10 as stated is false: selecting champion A, then champion B, with
the fetch for B resolving before the stale fetch for A, leaves the skin list
showing the skins of A's detail, not B's — no guard discards the superseded
result. -/
theorem C10_counterexample :
    (on_champion_selected { st0 with var_champion := "Ahri".data }).2 = some 103 ∧
    (on_champion_selected { c10_st1 with var_champion := "Brand".data }).2 = some 63 ∧
    c10_st4.cmbSkinValues = ["Star Guardian Ahri".data] ∧
    c10_st4.cmbSkinValues ≠ (removeBaseSkins detailB.skins).map Skin.name := by
  refine ⟨by decide, by decide, by decide, by decide⟩

/-- Claim C10 amended: results of detail fetches are applied unconditionally,
so the skin list reflects whichever fetch completed last — in the A-then-B
scenario with A's fetch resolving after B's, the final skin list is built
from A's detail. -/
theorem C10_amended_last_completion_wins (st : AppState)
    (dB dA : ChampionDetail) :
    (load_champ_data (load_champ_data st (.ok dB)) (.ok dA)).cmbSkinValues
      = (removeBaseSkins dA.skins).map Skin.name := by
  simp [load_champ_data, removeBaseSkins_eq_filter]

end Exec2
